import Mathlib

/-!
Verification of the know-before-you-vote corroboration engine and front-end
components. Front-end components (CandidateCard, ConnectionBadge, Home page
zip handling) are embedded from the TypeScript source under src/web and
src/unnamed. The Python pipeline modules (normalize/match/corroborate/
classify/citations) are not part of the visible source tree, so those
components are modelled from the specification's contracts.
-/

namespace KBYV

/-- An Entity: a person mention extracted from one source database. -/
structure Entity where
  source_id : String
  raw_name : String
  canonical_name : String
  document_refs : List String
  context_snippets : List String
  deriving DecidableEq, Repr

/-- A Candidate: a person appearing on a ballot. -/
structure Candidate where
  candidate_id : String
  full_name : String
  aliases : List String
  office : String
  jurisdiction : String
  party : String
  incumbent : Bool
  deriving DecidableEq, Repr

/-- A ConfirmedLink: (candidate_id, entity.source_id, entity,
verdict_confidence), produced by the Oracle Adapter for pairs confirmed as
the same person. -/
structure ConfirmedLink where
  candidate_id : String
  source_id : String
  entity : Entity
  verdict_confidence : String
  deriving DecidableEq, Repr

/-- Confidence tier of a corroboration verdict. -/
inductive ConfidenceTier where
  | NONE
  | NOT_DISPLAYED
  | MEDIUM
  | HIGH
  deriving DecidableEq, Repr

/-- Numeric rank of a tier, used to state monotonicity. -/
def ConfidenceTier.rank : ConfidenceTier → Nat
  | .NONE => 0
  | .NOT_DISPLAYED => 1
  | .MEDIUM => 2
  | .HIGH => 3

/-- Modelled from the spec: the count → tier mapping of the Corroboration
Aggregator (pipeline/crossref/corroborate.py is not in the visible source):
0 → NONE, 1 → NOT_DISPLAYED, 2 → MEDIUM, ≥3 → HIGH. -/
def tierOfCount (n : Nat) : ConfidenceTier :=
  if n = 0 then .NONE
  else if n = 1 then .NOT_DISPLAYED
  else if n = 2 then .MEDIUM
  else .HIGH

/-- The distinct source identifiers appearing among a set of confirmed
links (each kept once). -/
def sourceIds (links : List ConfirmedLink) : List String :=
  (links.map (fun l => l.source_id)).dedup

/-- Modelled from the spec: grouping of ConfirmedLinks by source_id —
multiple confirmed entities from the same source database are recorded as
multiple supporting links under one source credit. -/
def groupBySource (links : List ConfirmedLink) :
    List (String × List ConfirmedLink) :=
  (sourceIds links).map (fun s => (s, links.filter (fun l => l.source_id = s)))

/-- Number of distinct source databases supporting a candidate. -/
def distinctSourceCount (links : List ConfirmedLink) : Nat :=
  (groupBySource links).length

/-- A CorroborationVerdict for one candidate. -/
structure CorroborationVerdict where
  candidate_id : String
  distinct_source_count : Nat
  confidence_tier : ConfidenceTier
  supporting_links : List ConfirmedLink
  deriving DecidableEq, Repr

/-- Modelled from the spec: `aggregate(candidate_id, confirmed_links) ->
CorroborationVerdict` (pipeline/crossref/corroborate.py is not in the
visible source). Groups ConfirmedLinks by source_id, counts distinct
source identifiers, and maps the count to a tier. -/
def aggregate (candidate_id : String) (links : List ConfirmedLink) :
    CorroborationVerdict :=
  { candidate_id := candidate_id
    distinct_source_count := distinctSourceCount links
    confidence_tier := tierOfCount (distinctSourceCount links)
    supporting_links := links }

theorem distinctSourceCount_eq_dedup_length (links : List ConfirmedLink) :
    distinctSourceCount links
      = ((links.map (fun l => l.source_id)).dedup).length := by
  simp [distinctSourceCount, groupBySource, sourceIds]

theorem tierOfCount_mono {m n : Nat} (h : m ≤ n) :
    (tierOfCount m).rank ≤ (tierOfCount n).rank := by
  unfold tierOfCount
  by_cases hm0 : m = 0 <;> by_cases hm1 : m = 1 <;> by_cases hm2 : m = 2 <;>
    by_cases hn0 : n = 0 <;> by_cases hn1 : n = 1 <;> by_cases hn2 : n = 2 <;>
    simp_all [ConfidenceTier.rank] <;> omega

/-- Three-way verdict of the Disambiguation Oracle Adapter. -/
inductive Verdict where
  | CONFIRM
  | REJECT
  | UNCERTAIN
  deriving DecidableEq, Repr

/-- A MatchCandidatePair: transient (candidate_id, entity,
similarity_score) record between Matcher and Oracle Adapter. -/
structure MatchCandidatePair where
  candidate_id : String
  entity : Entity
  similarity_score : Nat
  deriving DecidableEq, Repr

/-- Modelled from the spec: the Oracle Adapter's deterministic mapping of
the external collaborator's response into the three-way verdict
(pipeline/crossref/match.py is not in the visible source). `none` stands
for an unreachable collaborator; an unrecognized response string is
unparseable. Both fail closed to UNCERTAIN. -/
def parseVerdict (response : Option String) : Verdict :=
  match response with
  | none => .UNCERTAIN
  | some s =>
      if s = "CONFIRM" then .CONFIRM
      else if s = "REJECT" then .REJECT
      else .UNCERTAIN

/-- Modelled from the spec: `disambiguate(pair, biographical_context) ->
Verdict`, with only CONFIRM advancing to a ConfirmedLink. The external
collaborator's raw response is passed in as `response`. -/
def disambiguate (response : Option String) (pair : MatchCandidatePair) :
    Option ConfirmedLink :=
  match parseVerdict response with
  | .CONFIRM =>
      some { candidate_id := pair.candidate_id
             source_id := pair.entity.source_id
             entity := pair.entity
             verdict_confidence := "CONFIRM" }
  | .REJECT => none
  | .UNCERTAIN => none

/-- The documented default similarity threshold of the Similarity
Matcher (92 on a 0–100 scale). -/
def defaultSimilarityThreshold : Nat := 92

/-- Modelled from the spec: the similarity score of one candidate–entity
pair is the maximum, over all of the candidate's alternate normalized
forms (nickname expansions and suffix-stripped variants included), of the
similarity of that form against the entity's canonical name. `sim` is the
edit-distance-family scoring function of the missing matcher module. -/
def pairScore (sim : String → String → Nat) (variants : List String)
    (e : Entity) : Nat :=
  (variants.map (fun v => sim v e.canonical_name)).foldr max 0

/-- The MatchCandidatePair built for one entity. -/
def mkPair (sim : String → String → Nat) (candidate_id : String)
    (variants : List String) (e : Entity) : MatchCandidatePair :=
  { candidate_id := candidate_id
    entity := e
    similarity_score := pairScore sim variants e }

/-- Modelled from the spec: `shortlist(candidate, entities)` retains
exactly the pairs whose similarity_score reaches the configured threshold
(inclusive), scoring each pair by the maximum across the candidate's
alternate forms (pipeline/crossref/match.py is not in the visible
source). -/
def shortlist (sim : String → String → Nat) (threshold : Nat)
    (candidate_id : String) (variants : List String)
    (entities : List Entity) : List MatchCandidatePair :=
  (entities.map (mkPair sim candidate_id variants)).filter
    (fun p => threshold ≤ p.similarity_score)

/-- A Citation: (summary, document_url, source_id); document_url must be
non-empty. -/
structure Citation where
  summary : String
  document_url : String
  source_id : String
  deriving DecidableEq, Repr

/-- Connection level of a classified connection. -/
inductive ConnectionLevel where
  | Direct
  | Contact
  | Financial
  | Institutional
  deriving DecidableEq, Repr

/-- A ClassifiedConnection, produced only for candidates whose
CorroborationVerdict is MEDIUM or HIGH. -/
structure ClassifiedConnection where
  candidate_id : String
  level : ConnectionLevel
  citations : List Citation
  confidence_tier : ConfidenceTier
  deriving DecidableEq, Repr

/-- Modelled from the spec: the Citation Assembler's per-link citation,
carrying a human-readable summary derived from context snippets and a
non-empty document_url taken from the link's entity; construction fails
when no resolvable URL exists (pipeline/classify/citations.py is not in
the visible source). -/
def citationOfLink (l : ConfirmedLink) : Option Citation :=
  match l.entity.document_refs with
  | [] => none
  | url :: _ =>
      if url = "" then none
      else some { summary := String.intercalate " " l.entity.context_snippets
                  document_url := url
                  source_id := l.source_id }

/-- Modelled from the spec: `assemble(classified_connection) -> sequence
of Citation`, one citation per supporting link; fails if any produced
citation lacks a resolvable URL. -/
def assemble : List ConfirmedLink → Option (List Citation)
  | [] => some []
  | l :: ls =>
      match citationOfLink l, assemble ls with
      | some c, some cs => some (c :: cs)
      | _, _ => none

/-- Modelled from the spec: constructing a ClassifiedConnection. A
classification with no resolvable citation is a fatal construction error,
and the NOT_DISPLAYED/NONE tiers never construct one. -/
def mkClassifiedConnection (candidate_id : String) (level : ConnectionLevel)
    (tier : ConfidenceTier) (links : List ConfirmedLink) :
    Option ClassifiedConnection :=
  if tier = .MEDIUM ∨ tier = .HIGH then
    match assemble links with
    | none => none
    | some [] => none
    | some (c :: cs) =>
        some { candidate_id := candidate_id
               level := level
               citations := c :: cs
               confidence_tier := tier }
  else none

/-- Public output for one candidate. -/
inductive PublicOutput where
  | noDocumentedConnection
  | connection (c : ClassifiedConnection)
  deriving DecidableEq, Repr

/-- Modelled from the spec: whether the Classifier is invoked for a
candidate — only when the corroboration verdict's tier is MEDIUM or
HIGH. -/
def classifierInvoked (candidate_id : String)
    (links : List ConfirmedLink) : Bool :=
  (aggregate candidate_id links).confidence_tier = .MEDIUM
    ∨ (aggregate candidate_id links).confidence_tier = .HIGH

/-- Modelled from the spec: the per-candidate tail of the pipeline —
aggregate the confirmed links, invoke the Classifier only for MEDIUM/HIGH
verdicts (`classifyOracle` is the external reasoning collaborator, `none`
meaning an unparseable or missing classification, which blocks
publication), assemble citations, and fall back to "no documented
connection" in every other case. -/
def publishCandidate
    (classifyOracle : String → List ConfirmedLink → Option ConnectionLevel)
    (candidate_id : String) (links : List ConfirmedLink) : PublicOutput :=
  if (aggregate candidate_id links).confidence_tier = .MEDIUM
      ∨ (aggregate candidate_id links).confidence_tier = .HIGH then
    match classifyOracle candidate_id
        (aggregate candidate_id links).supporting_links with
    | none => .noDocumentedConnection
    | some level =>
        match mkClassifiedConnection candidate_id level
            (aggregate candidate_id links).confidence_tier
            (aggregate candidate_id links).supporting_links with
        | none => .noDocumentedConnection
        | some conn => .connection conn
  else .noDocumentedConnection

/-- JavaScript `a || b` on an optional string: `b` when `a` is
undefined/null or the empty string (falsy), `a`'s value otherwise. -/
def jsOrElse (a : Option String) (b : String) : String :=
  match a with
  | none => b
  | some s => if s = "" then b else s

/-- The `levelColors` table of src/web/src/components/ConnectionBadge.tsx:
a record mapping known level strings to Tailwind color classes. -/
def levelColors (level : String) : Option String :=
  if level = "Direct" then some "bg-red-100 text-red-800 border-red-200"
  else if level = "Contact" then
    some "bg-orange-100 text-orange-800 border-orange-200"
  else if level = "Financial" then
    some "bg-yellow-100 text-yellow-800 border-yellow-200"
  else if level = "Institutional" then
    some "bg-purple-100 text-purple-800 border-purple-200"
  else if level = "None found" then
    some "bg-green-100 text-green-800 border-green-200"
  else none

/-- What the ConnectionBadge component renders: the level text, the color
class of the span, and the confidence suffix if shown. -/
structure BadgeRender where
  levelText : String
  colorClass : String
  confidenceSuffix : Option String
  deriving DecidableEq, Repr

/-- The ConnectionBadge component of
src/web/src/components/ConnectionBadge.tsx: looks the level up in
`levelColors` with a gray fallback, renders the level text, and renders
`(confidence)` only when `confidence` is truthy (a non-empty string). -/
def ConnectionBadge (level : String) (confidence : Option String) :
    BadgeRender :=
  { levelText := level
    colorClass :=
      (levelColors level).getD "bg-gray-100 text-gray-800 border-gray-200"
    confidenceSuffix :=
      match confidence with
      | none => none
      | some c => if c = "" then none else some c }

/-- The front-end Citation record of src/unnamed/part_000
(CandidateCard.tsx). -/
structure DisplayCitation where
  summary : String
  level : String
  confidence : Option String
  num_sources : Nat
  caveat : Option String
  deriving DecidableEq, Repr

/-- Props of the CandidateCard component of src/unnamed/part_000. -/
structure CandidateCardProps where
  id : String
  name : String
  party : String
  office : String
  incumbent : Bool
  hasConnections : Bool
  topCitation : Option DisplayCitation
  deriving DecidableEq, Repr

/-- The `partyLabels` table of src/unnamed/part_000 (CandidateCard.tsx). -/
def partyLabels (party : String) : Option String :=
  if party = "D" then some "Democrat"
  else if party = "R" then some "Republican"
  else if party = "L" then some "Libertarian"
  else if party = "G" then some "Green"
  else if party = "I" then some "Independent"
  else none

/-- What the CandidateCard component renders. -/
structure CardRender where
  linkHref : String
  nameText : String
  incumbentTagShown : Bool
  partyLabelText : String
  officeText : String
  badge : BadgeRender
  citationSummaryShown : Option String
  noConnectionMessageShown : Bool
  deriving DecidableEq, Repr

/-- The CandidateCard component of src/unnamed/part_000: badge level is
`topCitation?.level || "Contact"` when `hasConnections`, else
"None found"; badge confidence is `topCitation?.confidence`; the citation
summary paragraph renders only when `hasConnections && topCitation`; the
no-connection message renders exactly when `!hasConnections`. -/
def CandidateCard (props : CandidateCardProps) : CardRender :=
  { linkHref := "/candidate/" ++ props.id
    nameText := props.name
    incumbentTagShown := props.incumbent
    partyLabelText := (partyLabels props.party).getD props.party
    officeText := props.office
    badge :=
      ConnectionBadge
        (if props.hasConnections then
          jsOrElse (props.topCitation.map (fun t => t.level)) "Contact"
        else "None found")
        (props.topCitation.bind (fun t => t.confidence))
    citationSummaryShown :=
      if props.hasConnections then props.topCitation.map (fun t => t.summary)
      else none
    noConnectionMessageShown := !props.hasConnections }

/-- The outcome of the landing page's `handleSubmit` of
src/unnamed/part_002: where the router navigates (if at all) and the
error message set. -/
structure SubmitOutcome where
  navigatesTo : Option String
  errorMessage : String
  deriving DecidableEq, Repr

/-- `zip.replace(/\D/g, "").slice(0, 5)` of src/unnamed/part_002: strip
every non-digit character, keep the first 5 of the remaining digits. -/
def cleanedZip (zip : String) : String :=
  String.mk ((zip.toList.filter Char.isDigit).take 5)

/-- The `handleSubmit` handler of src/unnamed/part_002 (Home): navigate
to `/results/<cleaned>` when the cleaned input has exactly 5 characters,
otherwise set the validation error and stay. -/
def handleSubmit (zip : String) : SubmitOutcome :=
  if (cleanedZip zip).length ≠ 5 then
    { navigatesTo := none
      errorMessage := "Please enter a valid 5-digit zip code." }
  else
    { navigatesTo := some ("/results/" ++ cleanedZip zip)
      errorMessage := "" }

/-! Helper lemmas. -/

theorem tierOfCount_eq_HIGH {n : Nat} (h : 3 ≤ n) : tierOfCount n = .HIGH := by
  unfold tierOfCount
  have h0 : n ≠ 0 := by omega
  have h1 : n ≠ 1 := by omega
  have h2 : n ≠ 2 := by omega
  simp [h0, h1, h2]

theorem tierOfCount_displayed_iff (n : Nat) :
    (tierOfCount n = .MEDIUM ∨ tierOfCount n = .HIGH) ↔ 2 ≤ n := by
  unfold tierOfCount
  by_cases h0 : n = 0
  · simp_all
  · by_cases h1 : n = 1
    · simp_all
    · by_cases h2 : n = 2
      · simp_all
      · simp_all
        omega

theorem citationOfLink_url_ne_empty {l : ConfirmedLink} {c : Citation}
    (h : citationOfLink l = some c) : c.document_url ≠ "" := by
  unfold citationOfLink at h
  cases hd : l.entity.document_refs with
  | nil => simp [hd] at h
  | cons url rest =>
      rw [hd] at h
      by_cases hu : url = ""
      · simp [hu] at h
      · simp [hu] at h
        rw [← h]
        exact hu

theorem assemble_urls_ne_empty :
    ∀ (links : List ConfirmedLink) (cits : List Citation),
      assemble links = some cits → ∀ c ∈ cits, c.document_url ≠ "" := by
  intro links
  induction links with
  | nil =>
      intro cits h c hc
      simp [assemble] at h
      subst h
      simp at hc
  | cons l ls ih =>
      intro cits h c hc
      unfold assemble at h
      cases hl : citationOfLink l with
      | none => rw [hl] at h; simp at h
      | some c0 =>
          rw [hl] at h
          cases hls : assemble ls with
          | none => rw [hls] at h; simp at h
          | some cs =>
              rw [hls] at h
              simp at h
              subst h
              rcases List.mem_cons.mp hc with hc0 | hcs
              · subst hc0; exact citationOfLink_url_ne_empty hl
              · exact ih cs hls c hcs

theorem assemble_none_of_bad_link :
    ∀ (links : List ConfirmedLink), (∃ l ∈ links, citationOfLink l = none) →
      assemble links = none := by
  intro links
  induction links with
  | nil => intro h; rcases h with ⟨l, hl, _⟩; simp at hl
  | cons x ls ih =>
      intro h
      rcases h with ⟨l, hl, hbad⟩
      rcases List.mem_cons.mp hl with h0 | hmem
      · subst h0
        unfold assemble
        rw [hbad]
      · unfold assemble
        rw [ih ⟨l, hmem, hbad⟩]
        cases citationOfLink x
        · rfl
        · rfl

theorem le_foldr_max {l : List Nat} {x : Nat} (h : x ∈ l) :
    x ≤ l.foldr max 0 := by
  induction l with
  | nil => simp at h
  | cons a t ih =>
      rcases List.mem_cons.mp h with h0 | ht
      · subst h0; exact le_max_left _ _
      · exact le_trans (ih ht) (le_max_right _ _)

theorem foldr_max_attained {l : List Nat} (h : l ≠ []) :
    ∃ x ∈ l, l.foldr max 0 = x := by
  induction l with
  | nil => exact absurd rfl h
  | cons a t ih =>
      cases t with
      | nil => exact ⟨a, List.mem_singleton_self a, by simp⟩
      | cons b t2 =>
          rcases ih (by simp) with ⟨x, hx, hfx⟩
          rcases le_total a ((b :: t2).foldr max 0) with hle | hge
          · refine ⟨x, List.mem_cons_of_mem a hx, ?_⟩
            show max a ((b :: t2).foldr max 0) = x
            rw [max_eq_right hle]
            exact hfx
          · refine ⟨a, List.mem_cons_self a _, ?_⟩
            show max a ((b :: t2).foldr max 0) = a
            rw [max_eq_left hge]

/-! Sample data used by witnesses. -/

/-- A sample entity carrying a resolvable document reference. -/
def sampleEntity (sid : String) : Entity :=
  { source_id := sid
    raw_name := "Jane Doe"
    canonical_name := "jane doe"
    document_refs := ["https://example.org/doc1"]
    context_snippets := ["flight log entry"] }

/-- A sample confirmed link from the given source database. -/
def sampleLink (sid : String) : ConfirmedLink :=
  { candidate_id := "c1"
    source_id := sid
    entity := sampleEntity sid
    verdict_confidence := "CONFIRM" }

/-- A confirmed link whose entity has an empty document reference. -/
def badLink : ConfirmedLink :=
  { candidate_id := "c1"
    source_id := "A"
    entity :=
      { source_id := "A"
        raw_name := "Jane Doe"
        canonical_name := "jane doe"
        document_refs := [""]
        context_snippets := ["snippet"] }
    verdict_confidence := "CONFIRM" }

/-- A sample shortlisted pair. -/
def samplePair : MatchCandidatePair :=
  { candidate_id := "c1"
    entity := sampleEntity "A"
    similarity_score := 95 }

/-- A sample similarity function for witnesses: 100 on exact equality,
0 otherwise. -/
def simSample : String → String → Nat :=
  fun a b => if a = b then 100 else 0

/-- Sample card props: no connections, but citation data present. -/
def samplePropsNoConn : CandidateCardProps :=
  { id := "ca-1"
    name := "Example Senator"
    party := "D"
    office := "U.S. Senate"
    incumbent := true
    hasConnections := false
    topCitation := some
      { summary := "sample summary"
        level := "Contact"
        confidence := some "HIGH"
        num_sources := 2
        caveat := none } }

/-! Claim theorems. -/

/-- C2: for every candidate_id and set of ConfirmedLinks, aggregate
counts the distinct source identifiers among the links and maps that
count to a confidence tier exactly as 0 → NONE, 1 → NOT_DISPLAYED,
2 → MEDIUM, ≥3 → HIGH; the tier is derived solely from the
distinct-source count. -/
theorem aggregate_tier_mapping (candidate_id : String)
    (links : List ConfirmedLink) :
    (aggregate candidate_id links).distinct_source_count
        = ((links.map (fun l => l.source_id)).dedup).length
    ∧ (aggregate candidate_id links).confidence_tier
        = tierOfCount ((aggregate candidate_id links).distinct_source_count)
    ∧ tierOfCount 0 = .NONE
    ∧ tierOfCount 1 = .NOT_DISPLAYED
    ∧ tierOfCount 2 = .MEDIUM
    ∧ (∀ n, 3 ≤ n → tierOfCount n = .HIGH) := by
  refine ⟨distinctSourceCount_eq_dedup_length links, rfl, rfl, rfl, rfl, ?_⟩
  intro n hn
  exact tierOfCount_eq_HIGH hn

/-- Witness for aggregate_tier_mapping at concrete inputs. -/
theorem aggregate_tier_mapping_witness :
    (3 ≤ 3 ∧ tierOfCount 3 = .HIGH)
    ∧ (aggregate "c1" [sampleLink "A"]).confidence_tier
        = tierOfCount ((aggregate "c1" [sampleLink "A"]).distinct_source_count) :=
  ⟨⟨by decide,
      (aggregate_tier_mapping "c1" [sampleLink "A"]).2.2.2.2.2 3 (by decide)⟩,
    (aggregate_tier_mapping "c1" [sampleLink "A"]).2.1⟩

/-- C6: adding a confirmed link from a source_id not already present
never decreases the candidate's confidence tier, and adding a link from
an already-counted source_id never increases it (it leaves the
distinct-source count, hence the tier, unchanged). -/
theorem tier_monotonicity (candidate_id : String) (l : ConfirmedLink)
    (links : List ConfirmedLink) :
    (l.source_id ∉ links.map (fun x => x.source_id) →
      ((aggregate candidate_id links).confidence_tier).rank
        ≤ ((aggregate candidate_id (l :: links)).confidence_tier).rank)
    ∧ (l.source_id ∈ links.map (fun x => x.source_id) →
      (aggregate candidate_id (l :: links)).confidence_tier
        = (aggregate candidate_id links).confidence_tier
      ∧ distinctSourceCount (l :: links) = distinctSourceCount links) := by
  have hmap : (l :: links).map (fun x => x.source_id)
      = l.source_id :: links.map (fun x => x.source_id) := rfl
  constructor
  · intro hnotmem
    have hcount : distinctSourceCount (l :: links)
        = distinctSourceCount links + 1 := by
      rw [distinctSourceCount_eq_dedup_length,
        distinctSourceCount_eq_dedup_length, hmap,
        List.dedup_cons_of_not_mem hnotmem, List.length_cons]
    show (tierOfCount (distinctSourceCount links)).rank
        ≤ (tierOfCount (distinctSourceCount (l :: links))).rank
    rw [hcount]
    exact tierOfCount_mono (Nat.le_succ _)
  · intro hmem
    have hcount : distinctSourceCount (l :: links)
        = distinctSourceCount links := by
      rw [distinctSourceCount_eq_dedup_length,
        distinctSourceCount_eq_dedup_length, hmap,
        List.dedup_cons_of_mem hmem]
    refine ⟨?_, hcount⟩
    show tierOfCount (distinctSourceCount (l :: links))
        = tierOfCount (distinctSourceCount links)
    rw [hcount]

/-- Witness for tier_monotonicity at concrete inputs: a fresh source on
one side, a duplicate source on the other. -/
theorem tier_monotonicity_witness :
    ((sampleLink "B").source_id ∉ [sampleLink "A"].map (fun x => x.source_id)
      ∧ ((aggregate "c1" [sampleLink "A"]).confidence_tier).rank
          ≤ ((aggregate "c1"
                (sampleLink "B" :: [sampleLink "A"])).confidence_tier).rank)
    ∧ ((sampleLink "A").source_id ∈ [sampleLink "A"].map (fun x => x.source_id)
      ∧ (aggregate "c1" (sampleLink "A" :: [sampleLink "A"])).confidence_tier
          = (aggregate "c1" [sampleLink "A"]).confidence_tier) := by
  constructor
  · exact ⟨by decide,
      (tier_monotonicity "c1" (sampleLink "B") [sampleLink "A"]).1 (by decide)⟩
  · exact ⟨by decide,
      ((tier_monotonicity "c1" (sampleLink "A") [sampleLink "A"]).2
        (by decide)).1⟩

/-- C1: a ClassifiedConnection reaches the published output only when the
candidate's corroboration verdict has distinct_source_count ≥ 2; a
candidate with fewer than 2 distinct confirming source databases never
invokes the Classifier and its public output is the safe default "no
documented connection". -/
theorem threshold_invariant
    (classifyOracle : String → List ConfirmedLink → Option ConnectionLevel)
    (candidate_id : String) (links : List ConfirmedLink) :
    (∀ conn, publishCandidate classifyOracle candidate_id links
        = .connection conn →
      2 ≤ (aggregate candidate_id links).distinct_source_count)
    ∧ ((aggregate candidate_id links).distinct_source_count < 2 →
      classifierInvoked candidate_id links = false
      ∧ publishCandidate classifyOracle candidate_id links
          = .noDocumentedConnection) := by
  have hagg : (aggregate candidate_id links).confidence_tier
      = tierOfCount (distinctSourceCount links) := rfl
  have hcnt : (aggregate candidate_id links).distinct_source_count
      = distinctSourceCount links := rfl
  constructor
  · intro conn h
    by_cases hd : (aggregate candidate_id links).confidence_tier = .MEDIUM
        ∨ (aggregate candidate_id links).confidence_tier = .HIGH
    · rw [hcnt]
      rw [hagg] at hd
      exact (tierOfCount_displayed_iff _).mp hd
    · unfold publishCandidate at h
      rw [if_neg hd] at h
      exact PublicOutput.noConfusion h
  · intro hn
    have hnd : ¬((aggregate candidate_id links).confidence_tier = .MEDIUM
        ∨ (aggregate candidate_id links).confidence_tier = .HIGH) := by
      rw [hagg, tierOfCount_displayed_iff]
      rw [hcnt] at hn
      omega
    constructor
    · unfold classifierInvoked
      exact decide_eq_false hnd
    · unfold publishCandidate
      rw [if_neg hnd]

/-- Witness for threshold_invariant: two distinct sources publish a
connection; a single source never invokes the Classifier and publishes
the safe default. -/
theorem threshold_invariant_witness :
    2 ≤ (aggregate "c1" [sampleLink "A", sampleLink "B"]).distinct_source_count
    ∧ (classifierInvoked "c1" [sampleLink "A"] = false
      ∧ publishCandidate (fun _ _ => some .Contact) "c1" [sampleLink "A"]
          = .noDocumentedConnection) := by
  constructor
  · exact (threshold_invariant (fun _ _ => some .Contact) "c1"
      [sampleLink "A", sampleLink "B"]).1
      { candidate_id := "c1"
        level := .Contact
        citations := [
          { summary := "flight log entry"
            document_url := "https://example.org/doc1"
            source_id := "A" },
          { summary := "flight log entry"
            document_url := "https://example.org/doc1"
            source_id := "B" }]
        confidence_tier := .MEDIUM }
      (by decide)
  · exact (threshold_invariant (fun _ _ => some .Contact) "c1"
      [sampleLink "A"]).2 (by decide)

/-- C3: every constructed ClassifiedConnection carries at least one
Citation and all of its citations have a non-empty document_url; when
some supporting link yields no resolvable citation, construction fails
(returns none) rather than producing an uncited connection. -/
theorem citation_completeness (candidate_id : String)
    (level : ConnectionLevel) (tier : ConfidenceTier)
    (links : List ConfirmedLink) :
    (∀ conn, mkClassifiedConnection candidate_id level tier links
        = some conn →
      conn.citations ≠ [] ∧ ∀ c ∈ conn.citations, c.document_url ≠ "")
    ∧ ((∃ l ∈ links, citationOfLink l = none) →
      mkClassifiedConnection candidate_id level tier links = none) := by
  constructor
  · intro conn h
    unfold mkClassifiedConnection at h
    by_cases ht : tier = .MEDIUM ∨ tier = .HIGH
    · rw [if_pos ht] at h
      cases ha : assemble links with
      | none =>
          rw [ha] at h
          exact Option.noConfusion h
      | some cits =>
          rw [ha] at h
          cases cits with
          | nil => exact Option.noConfusion h
          | cons c0 cs =>
              simp at h
              rw [← h]
              refine ⟨by simp, ?_⟩
              intro c hc
              exact assemble_urls_ne_empty links (c0 :: cs) ha c hc
    · rw [if_neg ht] at h
      exact Option.noConfusion h
  · intro hbad
    unfold mkClassifiedConnection
    rw [assemble_none_of_bad_link links hbad]
    by_cases ht : tier = .MEDIUM ∨ tier = .HIGH
    · rw [if_pos ht]
    · rw [if_neg ht]

/-- Witness for citation_completeness: a good link yields a connection
with non-empty citations; a link with an empty document reference makes
construction fail. -/
theorem citation_completeness_witness :
    (∀ conn, mkClassifiedConnection "c1" .Contact .MEDIUM [sampleLink "A"]
        = some conn →
      conn.citations ≠ [])
    ∧ mkClassifiedConnection "c1" .Contact .MEDIUM [badLink] = none := by
  constructor
  · intro conn h
    exact ((citation_completeness "c1" .Contact .MEDIUM
      [sampleLink "A"]).1 conn h).1
  · exact (citation_completeness "c1" .Contact .MEDIUM [badLink]).2
      ⟨badLink, by simp, by decide⟩

/-- C5: only a CONFIRM verdict produces a ConfirmedLink; REJECT and
UNCERTAIN produce none; an unreachable collaborator (no response) or an
unparseable response fails closed to UNCERTAIN, never CONFIRM. -/
theorem oracle_fail_closed (response : Option String)
    (pair : MatchCandidatePair) :
    ((∃ l, disambiguate response pair = some l)
        ↔ parseVerdict response = .CONFIRM)
    ∧ parseVerdict none = .UNCERTAIN
    ∧ (∀ s, s ≠ "CONFIRM" → s ≠ "REJECT" → s ≠ "UNCERTAIN" →
        parseVerdict (some s) = .UNCERTAIN)
    ∧ (parseVerdict response ≠ .CONFIRM →
        disambiguate response pair = none) := by
  refine ⟨?_, rfl, ?_, ?_⟩
  · constructor
    · rintro ⟨l, hl⟩
      unfold disambiguate at hl
      cases hv : parseVerdict response with
      | CONFIRM => rfl
      | REJECT =>
          rw [hv] at hl
          simp at hl
      | UNCERTAIN =>
          rw [hv] at hl
          simp at hl
    · intro hv
      unfold disambiguate
      rw [hv]
      exact ⟨_, rfl⟩
  · intro s h1 h2 h3
    unfold parseVerdict
    simp [h1, h2]
  · intro hne
    unfold disambiguate
    cases hv : parseVerdict response with
    | CONFIRM => exact absurd hv hne
    | REJECT => rfl
    | UNCERTAIN => rfl

/-- Witness for oracle_fail_closed: a garbled response parses to
UNCERTAIN; a REJECT verdict yields no ConfirmedLink. -/
theorem oracle_fail_closed_witness :
    parseVerdict (some "garbled response") = .UNCERTAIN
    ∧ disambiguate (some "REJECT") samplePair = none := by
  constructor
  · exact (oracle_fail_closed (some "garbled response") samplePair).2.2.1
      "garbled response" (by decide) (by decide) (by decide)
  · exact (oracle_fail_closed (some "REJECT") samplePair).2.2.2 (by decide)

/-- C7: shortlist returns exactly the pairs whose similarity score
reaches the configured threshold, inclusively; the score of each pair is
the maximum over all of the candidate's alternate normalized forms; the
documented default threshold is 92. -/
theorem shortlist_spec (sim : String → String → Nat) (threshold : Nat)
    (candidate_id : String) (variants : List String)
    (entities : List Entity) :
    (∀ p, p ∈ shortlist sim threshold candidate_id variants entities ↔
      ((∃ e ∈ entities, p = mkPair sim candidate_id variants e)
        ∧ threshold ≤ p.similarity_score))
    ∧ (∀ e : Entity, ∀ v ∈ variants,
        sim v e.canonical_name ≤ pairScore sim variants e)
    ∧ (variants ≠ [] → ∀ e : Entity, ∃ v ∈ variants,
        pairScore sim variants e = sim v e.canonical_name)
    ∧ defaultSimilarityThreshold = 92 := by
  refine ⟨?_, ?_, ?_, rfl⟩
  · intro p
    unfold shortlist
    rw [List.mem_filter, List.mem_map]
    constructor
    · rintro ⟨⟨e, he, hpe⟩, hth⟩
      exact ⟨⟨e, he, hpe.symm⟩, by simpa using hth⟩
    · rintro ⟨⟨e, he, hpe⟩, hth⟩
      exact ⟨⟨e, he, hpe.symm⟩, by simpa using hth⟩
  · intro e v hv
    unfold pairScore
    exact le_foldr_max (List.mem_map_of_mem _ hv)
  · intro hne e
    have hlist : (variants.map (fun v => sim v e.canonical_name)) ≠ [] := by
      simp [hne]
    rcases foldr_max_attained hlist with ⟨x, hx, hfx⟩
    rcases List.mem_map.mp hx with ⟨v, hv, hvx⟩
    refine ⟨v, hv, ?_⟩
    unfold pairScore
    rw [hfx]
    exact hvx.symm

/-- Witness for shortlist_spec at concrete inputs. -/
theorem shortlist_spec_witness :
    ("jane doe" ∈ ["jane doe"]
      ∧ simSample "jane doe" (sampleEntity "A").canonical_name
          ≤ pairScore simSample ["jane doe"] (sampleEntity "A"))
    ∧ ((["jane doe"] : List String) ≠ []
      ∧ ∃ v ∈ ["jane doe"],
          pairScore simSample ["jane doe"] (sampleEntity "A")
            = simSample v (sampleEntity "A").canonical_name) := by
  constructor
  · exact ⟨by decide,
      (shortlist_spec simSample 92 "c1" ["jane doe"] [sampleEntity "A"]).2.1
        (sampleEntity "A") "jane doe" (by decide)⟩
  · exact ⟨by decide,
      (shortlist_spec simSample 92 "c1" ["jane doe"] [sampleEntity "A"]).2.2.1
        (by decide) (sampleEntity "A")⟩

/-- C4: party noninterference — corroboration and publication depend on
the candidate only through candidate_id, so inputs identical except for
the party field yield identical verdicts and displayed output; in the
rendered candidate card, party affects only the party label text. -/
theorem party_noninterference
    (classifyOracle : String → List ConfirmedLink → Option ConnectionLevel)
    (c : Candidate) (p : String) (links : List ConfirmedLink)
    (props : CandidateCardProps) (p2 : String) :
    aggregate ({ c with party := p }).candidate_id links
        = aggregate c.candidate_id links
    ∧ publishCandidate classifyOracle ({ c with party := p }).candidate_id
          links
        = publishCandidate classifyOracle c.candidate_id links
    ∧ (CandidateCard { props with party := p2 }).badge
        = (CandidateCard props).badge
    ∧ (CandidateCard { props with party := p2 }).citationSummaryShown
        = (CandidateCard props).citationSummaryShown
    ∧ (CandidateCard { props with party := p2 }).noConnectionMessageShown
        = (CandidateCard props).noConnectionMessageShown
    ∧ (CandidateCard { props with party := p2 }).nameText
        = (CandidateCard props).nameText
    ∧ (CandidateCard { props with party := p2 }).officeText
        = (CandidateCard props).officeText
    ∧ (CandidateCard { props with party := p2 }).linkHref
        = (CandidateCard props).linkHref
    ∧ (CandidateCard { props with party := p2 }).incumbentTagShown
        = (CandidateCard props).incumbentTagShown :=
  ⟨rfl, rfl, rfl, rfl, rfl, rfl, rfl, rfl, rfl⟩

/-- C8: when hasConnections is false the card renders the "None found"
badge with the green color class, renders the no-documented-connections
message, and shows no citation summary even if citation data is
present. -/
theorem no_connection_safe_default (props : CandidateCardProps)
    (h : props.hasConnections = false) :
    (CandidateCard props).badge.levelText = "None found"
    ∧ (CandidateCard props).badge.colorClass
        = "bg-green-100 text-green-800 border-green-200"
    ∧ (CandidateCard props).noConnectionMessageShown = true
    ∧ (CandidateCard props).citationSummaryShown = none := by
  refine ⟨?_, ?_, ?_, ?_⟩
  · simp [CandidateCard, ConnectionBadge, h]
  · simp [CandidateCard, ConnectionBadge, levelColors, h]
  · simp [CandidateCard, h]
  · simp [CandidateCard, h]

/-- Witness for no_connection_safe_default: citation data is present but
hasConnections is false, so the card shows "None found" and hides the
summary. -/
theorem no_connection_safe_default_witness :
    samplePropsNoConn.hasConnections = false
    ∧ samplePropsNoConn.topCitation ≠ none
    ∧ (CandidateCard samplePropsNoConn).badge.levelText = "None found"
    ∧ (CandidateCard samplePropsNoConn).citationSummaryShown = none := by
  refine ⟨rfl, by decide, ?_, ?_⟩
  · exact (no_connection_safe_default samplePropsNoConn rfl).1
  · exact (no_connection_safe_default samplePropsNoConn rfl).2.2.2

/-- C9: handleSubmit strips non-digit characters, keeps the first 5
digits, navigates to /results/<digits> exactly when the input holds at
least 5 digit characters, and otherwise sets the validation error and
does not navigate. -/
theorem handleSubmit_spec (zip : String) :
    cleanedZip zip = String.mk ((zip.toList.filter Char.isDigit).take 5)
    ∧ (5 ≤ (zip.toList.filter Char.isDigit).length →
        handleSubmit zip
          = { navigatesTo := some ("/results/" ++ cleanedZip zip)
              errorMessage := "" })
    ∧ ((zip.toList.filter Char.isDigit).length < 5 →
        handleSubmit zip
          = { navigatesTo := none
              errorMessage := "Please enter a valid 5-digit zip code." }) := by
  have hlen : (cleanedZip zip).length
      = min 5 (zip.toList.filter Char.isDigit).length := by
    show ((zip.toList.filter Char.isDigit).take 5).length = _
    exact List.length_take _ _
  refine ⟨rfl, ?_, ?_⟩
  · intro h
    have h5 : (cleanedZip zip).length = 5 := by omega
    unfold handleSubmit
    rw [if_neg (by omega)]
  · intro h
    have h5 : (cleanedZip zip).length ≠ 5 := by omega
    unfold handleSubmit
    rw [if_pos h5]

/-- Witness for handleSubmit_spec: an input with extra characters and 9
digits navigates to its first 5 digits; a 3-digit input errors. -/
theorem handleSubmit_spec_witness :
    (5 ≤ ("90210-1234".toList.filter Char.isDigit).length
      ∧ handleSubmit "90210-1234"
          = { navigatesTo := some "/results/90210", errorMessage := "" })
    ∧ (("123".toList.filter Char.isDigit).length < 5
      ∧ handleSubmit "123"
          = { navigatesTo := none
              errorMessage := "Please enter a valid 5-digit zip code." }) := by
  constructor
  · refine ⟨by decide, ?_⟩
    rw [(handleSubmit_spec "90210-1234").2.1 (by decide)]
    decide
  · exact ⟨by decide, (handleSubmit_spec "123").2.2 (by decide)⟩

/-- C10: ConnectionBadge is total over level strings — the five known
levels map to their color classes, any other level string falls back to
the gray class with the level text still rendered, and the confidence
suffix is rendered exactly when confidence is a non-empty string. -/
theorem connectionBadge_total (level : String) (confidence : Option String) :
    (ConnectionBadge "Direct" confidence).colorClass
        = "bg-red-100 text-red-800 border-red-200"
    ∧ (ConnectionBadge "Contact" confidence).colorClass
        = "bg-orange-100 text-orange-800 border-orange-200"
    ∧ (ConnectionBadge "Financial" confidence).colorClass
        = "bg-yellow-100 text-yellow-800 border-yellow-200"
    ∧ (ConnectionBadge "Institutional" confidence).colorClass
        = "bg-purple-100 text-purple-800 border-purple-200"
    ∧ (ConnectionBadge "None found" confidence).colorClass
        = "bg-green-100 text-green-800 border-green-200"
    ∧ (level ∉ ["Direct", "Contact", "Financial", "Institutional",
          "None found"] →
        (ConnectionBadge level confidence).colorClass
          = "bg-gray-100 text-gray-800 border-gray-200")
    ∧ (ConnectionBadge level confidence).levelText = level
    ∧ (∀ c, (ConnectionBadge level confidence).confidenceSuffix = some c ↔
        (confidence = some c ∧ c ≠ "")) := by
  refine ⟨rfl, rfl, rfl, rfl, rfl, ?_, rfl, ?_⟩
  · intro h
    simp only [List.mem_cons, List.not_mem_nil, or_false, not_or] at h
    obtain ⟨h1, h2, h3, h4, h5⟩ := h
    simp [ConnectionBadge, levelColors, h1, h2, h3, h4, h5]
  · intro c
    cases confidence with
    | none =>
        constructor
        · intro hc
          exact Option.noConfusion hc
        · rintro ⟨hc, _⟩
          exact Option.noConfusion hc
    | some s =>
        have hsuf : (ConnectionBadge level (some s)).confidenceSuffix
            = if s = "" then none else some s := rfl
        by_cases hs : s = ""
        · rw [hsuf, if_pos hs]
          constructor
          · intro hc
            exact Option.noConfusion hc
          · rintro ⟨hc, hne⟩
            subst hs
            exact absurd (Option.some.inj hc).symm hne
        · rw [hsuf, if_neg hs]
          constructor
          · intro hc
            have hsc : s = c := Option.some.inj hc
            subst hsc
            exact ⟨rfl, hs⟩
          · rintro ⟨hc, _⟩
            exact hc

/-- Witness for connectionBadge_total: an unknown level string falls back
to the gray class. -/
theorem connectionBadge_total_witness :
    ("Unknown" ∉ ["Direct", "Contact", "Financial", "Institutional",
        "None found"])
    ∧ (ConnectionBadge "Unknown" (some "HIGH")).colorClass
        = "bg-gray-100 text-gray-800 border-gray-200" := by
  refine ⟨by decide, ?_⟩
  exact (connectionBadge_total "Unknown" (some "HIGH")).2.2.2.2.2.1 (by decide)

end KBYV
